import Mathlib

/-!
Shallow embedding of src/harness_wrapper.c, an AFL++ harness wrapper that
reads an input file into a bounded buffer, pipes the bytes to a spawned
python child (passing them also as a command-line argument), waits for the
child, and translates the child's termination status into its own exit
code or a self-delivered signal.

Modelling conventions:
  - bytes are Nat (values 0..255 in practice; the code never depends on the
    range);
  - the input file is Option (List Nat): none when open(2) fails, some l
    when the file holds exactly the bytes l;
  - read(2) on a regular file is deterministic here: each call returns
    min(requested, bytes remaining);
  - external effects (pipe, fork, dup2, execlp, write, waitpid) succeed or
    fail according to an Env record, and the per-signal disposition of the
    parent process (whether a raised signal terminates it) is a function
    in Env;
  - main produces a Run: the parent-side event trace, its diagnostic
    messages, its final termination (normal exit code or killed by a
    signal), and what the child observably receives (stdin bytes and the
    extra argv entry).
-/

namespace HarnessWrapper

/-- MAX_INPUT_SIZE from the C source (1 MiB). -/
def MAX_INPUT_SIZE : Nat := 1048576

/-- Signal number of SIGSEGV on Linux. -/
def SIGSEGV : Nat := 11

/-- Result of read_file: the returned byte count, the bytes stored into the
buffer, and whether the truncation warning was printed. -/
structure ReadResult where
  count : Nat
  data : List Nat
  warned : Bool
deriving DecidableEq

/-- The read loop of read_file (lines 29-37 of the C source):
while ((current_read = read(fd, buffer + bytes_read, max_size - bytes_read)) > 0)
accumulate; on bytes_read >= max_size print the truncation warning and break.
Each read(2) deterministically returns min(requested, remaining), where file
is the not-yet-consumed suffix of the input file. -/
def readLoop (max_size : Nat) (file : List Nat) (bytes_read : Nat) (acc : List Nat) : ReadResult :=
  if min (max_size - bytes_read) file.length = 0 then
    { count := bytes_read, data := acc, warned := false }
  else if max_size ≤ bytes_read + min (max_size - bytes_read) file.length then
    { count := bytes_read + min (max_size - bytes_read) file.length,
      data := acc ++ file.take (min (max_size - bytes_read) file.length),
      warned := true }
  else
    readLoop max_size (file.drop (min (max_size - bytes_read) file.length))
      (bytes_read + min (max_size - bytes_read) file.length)
      (acc ++ file.take (min (max_size - bytes_read) file.length))
termination_by file.length
decreasing_by
  simp only [List.length_drop]
  omega

/-- read_file (lines 23-41): returns 0 when the file cannot be opened,
otherwise runs the read loop from an empty buffer and closes the fd. -/
def read_file (file : Option (List Nat)) (max_size : Nat) : ReadResult :=
  match file with
  | none => { count := 0, data := [], warned := false }
  | some l => readLoop max_size l 0 []

/-- Status of the child as observed by waitpid: exited normally with a code,
terminated by a signal, or neither (the abnormal case). -/
inductive ChildStatus where
  | exited (code : Nat)
  | signaled (sig : Nat)
  | abnormal
deriving DecidableEq

/-- Diagnostic lines the parent prints to stderr. -/
inductive Msg where
  | noInput
  | pipeFail
  | forkFail
  | writeFail
  | waitFail
  | vulnDetected
  | childSignal (sig : Nat)
  | abnormalTerm
deriving DecidableEq

/-- Parent-side events, in program order. -/
inductive Event where
  | pipeCreated
  | forked
  | closedReadEnd
  | wrotePipe (n : Nat)
  | closedWriteEnd
  | waited
  | raised (sig : Nat)
deriving DecidableEq

/-- How the parent process itself ends: a normal exit with a code, or killed
by a signal it raised against itself. -/
inductive ProcExit where
  | exit (code : Nat)
  | killedBy (sig : Nat)
deriving DecidableEq

/-- Result of the translation step: signals the parent raises against
itself, diagnostics printed, and the parent's resulting termination. -/
structure TransResult where
  raisedSigs : List Nat
  msgs : List Msg
  result : ProcExit
deriving DecidableEq

/-- Translation step (lines 102-118): WIFEXITED with nonzero code raises
SIGSEGV then falls through to return 0; WIFSIGNALED re-raises the child's
signal then falls through to return 0; otherwise return 1.  dispo says, for
each signal, whether raising it terminates the parent process. -/
def translate (dispo : Nat → Bool) : ChildStatus → TransResult
  | ChildStatus.exited code =>
    if code ≠ 0 then
      { raisedSigs := [SIGSEGV], msgs := [Msg.vulnDetected],
        result := if dispo SIGSEGV then ProcExit.killedBy SIGSEGV else ProcExit.exit 0 }
    else
      { raisedSigs := [], msgs := [], result := ProcExit.exit 0 }
  | ChildStatus.signaled s =>
    { raisedSigs := [s], msgs := [Msg.childSignal s],
      result := if dispo s then ProcExit.killedBy s else ProcExit.exit 0 }
  | ChildStatus.abnormal =>
    { raisedSigs := [], msgs := [Msg.abnormalTerm], result := ProcExit.exit 1 }

/-- External-world parameters of one invocation: the input file, whether
pipe/fork/dup2/execlp/waitpid succeed, the waitpid status of the script when
exec succeeds, how many bytes the single write(2) call accepts, and the
parent's signal dispositions. -/
structure Env where
  file : Option (List Nat)
  pipe_ok : Bool
  fork_ok : Bool
  dup2_ok : Bool
  exec_ok : Bool
  script_status : ChildStatus
  writeRet : Nat
  wait_ok : Bool
  dispo : Nat → Bool

/-- Observable outcome of one invocation of main. -/
structure Run where
  trace : List Event
  stderrMsgs : List Msg
  term : ProcExit
  childStdin : List Nat
  childArg : Option (List Nat)
  childSpawned : Bool

/-- Status waitpid reports for the child (lines 78-88): if dup2 fails the
child exits 1; if execlp returns the child prints a diagnostic and exits 1;
otherwise the child becomes the python script and ends with script_status. -/
def childStatus (env : Env) : ChildStatus :=
  if env.dup2_ok = false then ChildStatus.exited 1
  else if env.exec_ok = false then ChildStatus.exited 1
  else env.script_status

/-- main (lines 43-119), parent side, after the argc check, as a function of
the external world.  childStdin is what reaches the child's standard input
(the bytes accepted by write(2) before the write end closes); childArg is
the C string passed to execlp, i.e. the buffer bytes up to the first NUL. -/
def main (env : Env) : Run :=
  if (read_file env.file (MAX_INPUT_SIZE - 1)).count = 0 then
    { trace := [], stderrMsgs := [Msg.noInput], term := ProcExit.exit 1,
      childStdin := [], childArg := none, childSpawned := false }
  else if env.pipe_ok = false then
    { trace := [], stderrMsgs := [Msg.pipeFail], term := ProcExit.exit 1,
      childStdin := [], childArg := none, childSpawned := false }
  else if env.fork_ok = false then
    { trace := [Event.pipeCreated], stderrMsgs := [Msg.forkFail], term := ProcExit.exit 1,
      childStdin := [], childArg := none, childSpawned := false }
  else if min env.writeRet (read_file env.file (MAX_INPUT_SIZE - 1)).count
      ≠ (read_file env.file (MAX_INPUT_SIZE - 1)).count then
    { trace := [Event.pipeCreated, Event.forked, Event.closedReadEnd,
        Event.wrotePipe (min env.writeRet (read_file env.file (MAX_INPUT_SIZE - 1)).count),
        Event.closedWriteEnd],
      stderrMsgs := [Msg.writeFail], term := ProcExit.exit 1,
      childStdin := (read_file env.file (MAX_INPUT_SIZE - 1)).data.take
        (min env.writeRet (read_file env.file (MAX_INPUT_SIZE - 1)).count),
      childArg := some ((read_file env.file (MAX_INPUT_SIZE - 1)).data.takeWhile
        (fun b => b != 0)),
      childSpawned := true }
  else if env.wait_ok = false then
    { trace := [Event.pipeCreated, Event.forked, Event.closedReadEnd,
        Event.wrotePipe (read_file env.file (MAX_INPUT_SIZE - 1)).count,
        Event.closedWriteEnd, Event.waited],
      stderrMsgs := [Msg.waitFail], term := ProcExit.exit 1,
      childStdin := (read_file env.file (MAX_INPUT_SIZE - 1)).data.take
        (read_file env.file (MAX_INPUT_SIZE - 1)).count,
      childArg := some ((read_file env.file (MAX_INPUT_SIZE - 1)).data.takeWhile
        (fun b => b != 0)),
      childSpawned := true }
  else
    { trace := [Event.pipeCreated, Event.forked, Event.closedReadEnd,
        Event.wrotePipe (read_file env.file (MAX_INPUT_SIZE - 1)).count,
        Event.closedWriteEnd, Event.waited]
        ++ (translate env.dispo (childStatus env)).raisedSigs.map Event.raised,
      stderrMsgs := (translate env.dispo (childStatus env)).msgs,
      term := (translate env.dispo (childStatus env)).result,
      childStdin := (read_file env.file (MAX_INPUT_SIZE - 1)).data.take
        (read_file env.file (MAX_INPUT_SIZE - 1)).count,
      childArg := some ((read_file env.file (MAX_INPUT_SIZE - 1)).data.takeWhile
        (fun b => b != 0)),
      childSpawned := true }

/-- Signals the parent raised against itself during the run, in order. -/
def raisedSignals (r : Run) : List Nat :=
  r.trace.filterMap fun e => match e with
    | Event.raised s => some s
    | _ => none

/-- The run reached the wait step: waitpid was called. -/
def ReachesWait (env : Env) : Prop := Event.waited ∈ (main env).trace

/-- Shape of the run when the parent reaches a successful waitpid: the fixed
event prefix followed by the raise events of the translation step. -/
def mainWaitRun (env : Env) : Run :=
  { trace := [Event.pipeCreated, Event.forked, Event.closedReadEnd,
      Event.wrotePipe (read_file env.file (MAX_INPUT_SIZE - 1)).count,
      Event.closedWriteEnd, Event.waited]
      ++ (translate env.dispo (childStatus env)).raisedSigs.map Event.raised,
    stderrMsgs := (translate env.dispo (childStatus env)).msgs,
    term := (translate env.dispo (childStatus env)).result,
    childStdin := (read_file env.file (MAX_INPUT_SIZE - 1)).data.take
      (read_file env.file (MAX_INPUT_SIZE - 1)).count,
    childArg := some ((read_file env.file (MAX_INPUT_SIZE - 1)).data.takeWhile
      (fun b => b != 0)),
    childSpawned := true }

theorem read_file_none (m : Nat) :
    read_file none m = { count := 0, data := [], warned := false } := rfl

theorem read_file_small (l : List Nat) (m : Nat) (h : l.length < m) :
    read_file (some l) m = { count := l.length, data := l, warned := false } := by
  show readLoop m l 0 [] = _
  rcases Nat.eq_zero_or_pos l.length with h0 | h0
  · obtain rfl : l = [] := List.eq_nil_of_length_eq_zero h0
    rw [readLoop]
    simp
  · have hmin : min (m - 0) l.length = l.length := by omega
    rw [readLoop, hmin, if_neg (by omega), if_neg (by omega), readLoop]
    simp

theorem read_file_big (l : List Nat) (m : Nat) (h0 : 0 < m) (h : m ≤ l.length) :
    read_file (some l) m = { count := m, data := l.take m, warned := true } := by
  show readLoop m l 0 [] = _
  have hmin : min (m - 0) l.length = m := by omega
  rw [readLoop, hmin, if_neg (by omega), if_pos (by omega)]
  simp

theorem readLoop_count_le (m : Nat) (file : List Nat) (br : Nat) (acc : List Nat)
    (hbr : br ≤ m) : (readLoop m file br acc).count ≤ m := by
  induction file, br, acc using readLoop.induct m with
  | case1 file br acc hc =>
    rw [readLoop, if_pos hc]
    exact hbr
  | case2 file br acc hc hw =>
    rw [readLoop, if_neg hc, if_pos hw]
    show br + min (m - br) file.length ≤ m
    omega
  | case3 file br acc hc hw ih =>
    rw [readLoop, if_neg hc, if_neg hw]
    exact ih (by omega)

theorem read_file_count_le (file : Option (List Nat)) (m : Nat) :
    (read_file file m).count ≤ m := by
  cases file with
  | none => simp [read_file]
  | some l => exact readLoop_count_le m l 0 [] (Nat.zero_le m)

theorem reachesWait_iff (env : Env) :
    ReachesWait env ↔
      ((read_file env.file (MAX_INPUT_SIZE - 1)).count ≠ 0 ∧ env.pipe_ok = true ∧
        env.fork_ok = true ∧
        min env.writeRet (read_file env.file (MAX_INPUT_SIZE - 1)).count
          = (read_file env.file (MAX_INPUT_SIZE - 1)).count) := by
  unfold ReachesWait main
  split
  next h1 => simp [h1]
  next h1 =>
    split
    next h2 => simp [h2]
    next h2 =>
      split
      next h3 => simp [h3]
      next h3 =>
        split
        next h4 => simp [h4]
        next h4 =>
          have h4x : min env.writeRet (read_file env.file (MAX_INPUT_SIZE - 1)).count
              = (read_file env.file (MAX_INPUT_SIZE - 1)).count := not_not.mp h4
          split
          next h5 =>
            simp [h1, h2, h3]
            omega
          next h5 =>
            simp [h1, h2, h3]
            omega

theorem main_eq_of_wait (env : Env)
    (h1 : (read_file env.file (MAX_INPUT_SIZE - 1)).count ≠ 0)
    (h2 : env.pipe_ok = true) (h3 : env.fork_ok = true)
    (h4 : min env.writeRet (read_file env.file (MAX_INPUT_SIZE - 1)).count
      = (read_file env.file (MAX_INPUT_SIZE - 1)).count)
    (h5 : env.wait_ok = true) :
    main env = mainWaitRun env := by
  unfold main mainWaitRun
  rw [if_neg h1, if_neg (by simp [h2]), if_neg (by simp [h3]),
    if_neg (by simp [h4]), if_neg (by simp [h5])]

/-- C1: for every child outcome produced by the wait step, a normal child
exit with code 0 makes the program exit 0 with no signal raised; a normal
child exit with a nonzero code makes it raise SIGSEGV against itself and
(under the default fatal disposition of SIGSEGV) terminate killed by
SIGSEGV; and an Abnormal status makes it exit 1 with no fault signal. -/
theorem claim_C1 (env : Env) (hw : ReachesWait env) (h5 : env.wait_ok = true)
    (hd : env.dispo SIGSEGV = true) :
    (childStatus env = ChildStatus.exited 0 →
      (main env).term = ProcExit.exit 0 ∧ raisedSignals (main env) = []) ∧
    (∀ n, n ≠ 0 → childStatus env = ChildStatus.exited n →
      raisedSignals (main env) = [SIGSEGV] ∧
      (main env).term = ProcExit.killedBy SIGSEGV) ∧
    (childStatus env = ChildStatus.abnormal →
      (main env).term = ProcExit.exit 1 ∧ raisedSignals (main env) = []) := by
  obtain ⟨h1, h2, h3, h4⟩ := (reachesWait_iff env).mp hw
  rw [main_eq_of_wait env h1 h2 h3 h4 h5]
  refine ⟨?_, ?_, ?_⟩
  · intro hs
    simp [mainWaitRun, raisedSignals, translate, hs]
  · intro n hn hs
    simp [mainWaitRun, raisedSignals, translate, hs, hn, hd]
  · intro hs
    simp [mainWaitRun, raisedSignals, translate, hs]

/-- Environment of a run whose child exits normally with code 0. -/
def envExit0 : Env :=
  { file := some [1], pipe_ok := true, fork_ok := true, dup2_ok := true,
    exec_ok := true, script_status := ChildStatus.exited 0, writeRet := 1,
    wait_ok := true, dispo := fun _ => true }

theorem claim_C1_witness :
    ReachesWait envExit0 ∧ envExit0.wait_ok = true ∧
    envExit0.dispo SIGSEGV = true ∧
    childStatus envExit0 = ChildStatus.exited 0 ∧
    (main envExit0).term = ProcExit.exit 0 ∧ raisedSignals (main envExit0) = [] :=
  have hw : ReachesWait envExit0 := (reachesWait_iff envExit0).mpr
    (by simp [envExit0, read_file_small, MAX_INPUT_SIZE])
  ⟨hw, rfl, rfl, rfl,
    (claim_C1 envExit0 hw rfl rfl).1 rfl⟩

/-- C2: if the child was terminated by signal s, the parent re-raises s
against itself and, when delivering s terminates the parent (its default
disposition for a fatal signal), the parent is killed by that same signal s
rather than exiting normally. -/
theorem claim_C2 (env : Env) (s : Nat) (hw : ReachesWait env)
    (h5 : env.wait_ok = true) (hs : childStatus env = ChildStatus.signaled s)
    (hd : env.dispo s = true) :
    raisedSignals (main env) = [s] ∧ (main env).term = ProcExit.killedBy s ∧
    ∀ c, (main env).term ≠ ProcExit.exit c := by
  obtain ⟨h1, h2, h3, h4⟩ := (reachesWait_iff env).mp hw
  rw [main_eq_of_wait env h1 h2 h3 h4 h5]
  refine ⟨?_, ?_, ?_⟩
  · simp [mainWaitRun, raisedSignals, translate, hs]
  · simp [mainWaitRun, translate, hs, hd]
  · intro c
    simp [mainWaitRun, translate, hs, hd]

/-- Environment of a run whose child is terminated by signal 9. -/
def envSig9 : Env :=
  { file := some [1], pipe_ok := true, fork_ok := true, dup2_ok := true,
    exec_ok := true, script_status := ChildStatus.signaled 9, writeRet := 1,
    wait_ok := true, dispo := fun _ => true }

theorem claim_C2_witness :
    ReachesWait envSig9 ∧ envSig9.wait_ok = true ∧
    childStatus envSig9 = ChildStatus.signaled 9 ∧ envSig9.dispo 9 = true ∧
    (raisedSignals (main envSig9) = [9] ∧
      (main envSig9).term = ProcExit.killedBy 9 ∧
      ∀ c, (main envSig9).term ≠ ProcExit.exit c) :=
  have hw : ReachesWait envSig9 := (reachesWait_iff envSig9).mpr
    (by simp [envSig9, read_file_small, MAX_INPUT_SIZE])
  ⟨hw, rfl, rfl, rfl, claim_C2 envSig9 9 hw rfl rfl rfl⟩

/-- C8: raise falls through to a normal return of 0, so whenever the raised
signal's delivery does not terminate the parent (disposition ignores it),
the program exits with code 0 - both for the SIGSEGV raised on a nonzero
child exit code and for a re-delivered child termination signal. -/
theorem claim_C8 (env : Env) (hw : ReachesWait env) (h5 : env.wait_ok = true) :
    (∀ n, n ≠ 0 → childStatus env = ChildStatus.exited n →
      env.dispo SIGSEGV = false →
      raisedSignals (main env) = [SIGSEGV] ∧ (main env).term = ProcExit.exit 0) ∧
    (∀ s, childStatus env = ChildStatus.signaled s → env.dispo s = false →
      raisedSignals (main env) = [s] ∧ (main env).term = ProcExit.exit 0) := by
  obtain ⟨h1, h2, h3, h4⟩ := (reachesWait_iff env).mp hw
  rw [main_eq_of_wait env h1 h2 h3 h4 h5]
  refine ⟨?_, ?_⟩
  · intro n hn hs hd
    simp [mainWaitRun, raisedSignals, translate, hs, hn, hd]
  · intro s hs hd
    simp [mainWaitRun, raisedSignals, translate, hs, hd]

/-- Environment of a run whose child exits 1 while the parent ignores all
signals it raises against itself. -/
def envIgnoreSegv : Env :=
  { file := some [1], pipe_ok := true, fork_ok := true, dup2_ok := true,
    exec_ok := true, script_status := ChildStatus.exited 1, writeRet := 1,
    wait_ok := true, dispo := fun _ => false }

theorem claim_C8_witness :
    ReachesWait envIgnoreSegv ∧ envIgnoreSegv.wait_ok = true ∧
    (1 : Nat) ≠ 0 ∧ childStatus envIgnoreSegv = ChildStatus.exited 1 ∧
    envIgnoreSegv.dispo SIGSEGV = false ∧
    (raisedSignals (main envIgnoreSegv) = [SIGSEGV] ∧
      (main envIgnoreSegv).term = ProcExit.exit 0) :=
  have hw : ReachesWait envIgnoreSegv := (reachesWait_iff envIgnoreSegv).mpr
    (by simp [envIgnoreSegv, read_file_small, MAX_INPUT_SIZE])
  ⟨hw, rfl, by decide, rfl, rfl,
    (claim_C8 envIgnoreSegv hw rfl).1 1 (by decide) rfl rfl⟩

/-- C9: when execlp returns (exec failure), the child exits with code 1, so
the parent's translation step treats it as a detected vulnerability: it
raises SIGSEGV against itself and dies of it instead of performing the
ordinary exit-1 failure report used for spawn failures. -/
theorem claim_C9 (env : Env) (hw : ReachesWait env) (h5 : env.wait_ok = true)
    (hdup : env.dup2_ok = true) (hexec : env.exec_ok = false)
    (hd : env.dispo SIGSEGV = true) :
    childStatus env = ChildStatus.exited 1 ∧
    Msg.vulnDetected ∈ (main env).stderrMsgs ∧
    raisedSignals (main env) = [SIGSEGV] ∧
    (main env).term = ProcExit.killedBy SIGSEGV ∧
    (main env).term ≠ ProcExit.exit 1 := by
  obtain ⟨h1, h2, h3, h4⟩ := (reachesWait_iff env).mp hw
  have hs : childStatus env = ChildStatus.exited 1 := by
    simp [childStatus, hdup, hexec]
  rw [main_eq_of_wait env h1 h2 h3 h4 h5]
  refine ⟨hs, ?_, ?_, ?_, ?_⟩
  · simp [mainWaitRun, translate, hs, hd]
  · simp [mainWaitRun, raisedSignals, translate, hs, hd]
  · simp [mainWaitRun, translate, hs, hd]
  · simp [mainWaitRun, translate, hs, hd]

/-- Environment of a run whose execlp call fails in the child. -/
def envExecFail : Env :=
  { file := some [1], pipe_ok := true, fork_ok := true, dup2_ok := true,
    exec_ok := false, script_status := ChildStatus.exited 0, writeRet := 1,
    wait_ok := true, dispo := fun _ => true }

theorem claim_C9_witness :
    ReachesWait envExecFail ∧ envExecFail.wait_ok = true ∧
    envExecFail.dup2_ok = true ∧ envExecFail.exec_ok = false ∧
    envExecFail.dispo SIGSEGV = true ∧
    (childStatus envExecFail = ChildStatus.exited 1 ∧
      Msg.vulnDetected ∈ (main envExecFail).stderrMsgs ∧
      raisedSignals (main envExecFail) = [SIGSEGV] ∧
      (main envExecFail).term = ProcExit.killedBy SIGSEGV ∧
      (main envExecFail).term ≠ ProcExit.exit 1) :=
  have hw : ReachesWait envExecFail := (reachesWait_iff envExecFail).mpr
    (by simp [envExecFail, read_file_small, MAX_INPUT_SIZE])
  ⟨hw, rfl, rfl, rfl, rfl, claim_C9 envExecFail hw rfl rfl rfl rfl⟩

/-- C5: when the write to the pipe delivers fewer bytes than the payload
length, the parent closes the write end and exits with code 1 without ever
reaching the wait step. -/
theorem claim_C5 (env : Env)
    (h1 : (read_file env.file (MAX_INPUT_SIZE - 1)).count ≠ 0)
    (h2 : env.pipe_ok = true) (h3 : env.fork_ok = true)
    (h4 : min env.writeRet (read_file env.file (MAX_INPUT_SIZE - 1)).count
      < (read_file env.file (MAX_INPUT_SIZE - 1)).count) :
    (main env).term = ProcExit.exit 1 ∧
    Event.closedWriteEnd ∈ (main env).trace ∧
    Event.waited ∉ (main env).trace ∧
    (main env).stderrMsgs = [Msg.writeFail] := by
  unfold main
  rw [if_neg h1, if_neg (by simp [h2]), if_neg (by simp [h3]),
    if_pos (Nat.ne_of_lt h4)]
  simp

/-- Environment of a run whose write call accepts only 1 of 3 payload
bytes. -/
def envShortWrite : Env :=
  { file := some [1, 2, 3], pipe_ok := true, fork_ok := true, dup2_ok := true,
    exec_ok := true, script_status := ChildStatus.exited 0, writeRet := 1,
    wait_ok := true, dispo := fun _ => true }

theorem claim_C5_witness :
    (read_file envShortWrite.file (MAX_INPUT_SIZE - 1)).count ≠ 0 ∧
    envShortWrite.pipe_ok = true ∧ envShortWrite.fork_ok = true ∧
    min envShortWrite.writeRet
      (read_file envShortWrite.file (MAX_INPUT_SIZE - 1)).count
      < (read_file envShortWrite.file (MAX_INPUT_SIZE - 1)).count ∧
    ((main envShortWrite).term = ProcExit.exit 1 ∧
      Event.closedWriteEnd ∈ (main envShortWrite).trace ∧
      Event.waited ∉ (main envShortWrite).trace ∧
      (main envShortWrite).stderrMsgs = [Msg.writeFail]) :=
  ⟨by simp [envShortWrite, read_file_small, MAX_INPUT_SIZE],
    rfl, rfl,
    by simp [envShortWrite, read_file_small, MAX_INPUT_SIZE],
    claim_C5 envShortWrite
      (by simp [envShortWrite, read_file_small, MAX_INPUT_SIZE]) rfl rfl
      (by simp [envShortWrite, read_file_small, MAX_INPUT_SIZE])⟩

/-- C6: whenever zero bytes come back from the loader - the file cannot be
opened or it is empty - the program prints the no-input diagnostic, exits
with code 1, and its trace is empty: no pipe is created and no child is
spawned. -/
theorem claim_C6 (env : Env) (h : env.file = none ∨ env.file = some []) :
    (main env).term = ProcExit.exit 1 ∧
    (main env).stderrMsgs = [Msg.noInput] ∧
    (main env).trace = [] ∧
    Event.pipeCreated ∉ (main env).trace ∧
    Event.forked ∉ (main env).trace ∧
    (main env).childSpawned = false := by
  have hc : (read_file env.file (MAX_INPUT_SIZE - 1)).count = 0 := by
    rcases h with h | h
    · rw [h, read_file_none]
    · rw [h, read_file_small [] (MAX_INPUT_SIZE - 1) (by decide)]
      rfl
  unfold main
  rw [if_pos hc]
  simp

theorem claim_C6_witness :
    ((Env.mk none true true true true (ChildStatus.exited 0) 0 true
        (fun _ => true)).file = none ∨
      (Env.mk none true true true true (ChildStatus.exited 0) 0 true
        (fun _ => true)).file = some []) ∧
    ((main (Env.mk none true true true true (ChildStatus.exited 0) 0 true
        (fun _ => true))).term = ProcExit.exit 1 ∧
      (main (Env.mk none true true true true (ChildStatus.exited 0) 0 true
        (fun _ => true))).stderrMsgs = [Msg.noInput] ∧
      (main (Env.mk none true true true true (ChildStatus.exited 0) 0 true
        (fun _ => true))).trace = [] ∧
      Event.pipeCreated ∉ (main (Env.mk none true true true true
        (ChildStatus.exited 0) 0 true (fun _ => true))).trace ∧
      Event.forked ∉ (main (Env.mk none true true true true
        (ChildStatus.exited 0) 0 true (fun _ => true))).trace ∧
      (main (Env.mk none true true true true (ChildStatus.exited 0) 0 true
        (fun _ => true))).childSpawned = false) :=
  ⟨Or.inl rfl,
    claim_C6 (Env.mk none true true true true (ChildStatus.exited 0) 0 true
      (fun _ => true)) (Or.inl rfl)⟩

/-- C7: every run that reaches the wait step has the fixed parent trace
prefix - pipe created, forked, read end closed, the full payload written in
one operation, write end closed, then the wait - and everything after the
wait is only raise events: the parent never waits before finishing its
write and never writes after closing its end. -/
theorem claim_C7 (env : Env) (hw : ReachesWait env) :
    ∃ rest, (main env).trace =
      [Event.pipeCreated, Event.forked, Event.closedReadEnd,
        Event.wrotePipe (read_file env.file (MAX_INPUT_SIZE - 1)).count,
        Event.closedWriteEnd, Event.waited] ++ rest ∧
      ∀ e ∈ rest, ∃ s, e = Event.raised s := by
  obtain ⟨h1, h2, h3, h4⟩ := (reachesWait_iff env).mp hw
  by_cases h5 : env.wait_ok = true
  · rw [main_eq_of_wait env h1 h2 h3 h4 h5]
    refine ⟨(translate env.dispo (childStatus env)).raisedSigs.map Event.raised,
      rfl, ?_⟩
    intro e he
    obtain ⟨s, _, rfl⟩ := List.mem_map.mp he
    exact ⟨s, rfl⟩
  · unfold main
    rw [if_neg h1, if_neg (by simp [h2]), if_neg (by simp [h3]),
      if_neg (by simp [h4]), if_pos (by simpa using h5)]
    exact ⟨[], by simp, by simp⟩

theorem claim_C7_witness :
    ReachesWait envExit0 ∧
    ∃ rest, (main envExit0).trace =
      [Event.pipeCreated, Event.forked, Event.closedReadEnd,
        Event.wrotePipe (read_file envExit0.file (MAX_INPUT_SIZE - 1)).count,
        Event.closedWriteEnd, Event.waited] ++ rest ∧
      ∀ e ∈ rest, ∃ s, e = Event.raised s :=
  have hw : ReachesWait envExit0 := (reachesWait_iff envExit0).mpr
    (by simp [envExit0, read_file_small, MAX_INPUT_SIZE])
  ⟨hw, claim_C7 envExit0 hw⟩

/-- C3 (amended): for a payload of size S with 0 < S below the loader
capacity, delivered in full by the write call, the child receives exactly
the S payload bytes on its standard input; its extra command-line argument
is the payload's longest NUL-free prefix - equal to the full S bytes
exactly when the payload contains no NUL byte, since execlp passes the
buffer as a C string that stops at the first NUL. -/
theorem claim_C3 (env : Env) (l : List Nat) (hf : env.file = some l)
    (hpos : 0 < l.length) (hlt : l.length < MAX_INPUT_SIZE - 1)
    (h2 : env.pipe_ok = true) (h3 : env.fork_ok = true)
    (hwr : l.length ≤ env.writeRet) :
    (main env).childStdin = l ∧ (main env).childStdin.length = l.length ∧
    (main env).childArg = some (l.takeWhile (fun b => b != 0)) ∧
    ((∀ b ∈ l, b ≠ 0) → (main env).childArg = some l) := by
  have hr : read_file env.file (MAX_INPUT_SIZE - 1)
      = { count := l.length, data := l, warned := false } := by
    rw [hf]
    exact read_file_small l _ hlt
  have h1 : (read_file env.file (MAX_INPUT_SIZE - 1)).count ≠ 0 := by
    rw [hr]
    show l.length ≠ 0
    omega
  have h4 : min env.writeRet (read_file env.file (MAX_INPUT_SIZE - 1)).count
      = (read_file env.file (MAX_INPUT_SIZE - 1)).count := by
    rw [hr]
    show min env.writeRet l.length = l.length
    omega
  have key : (main env).childStdin = l ∧
      (main env).childArg = some (l.takeWhile (fun b => b != 0)) := by
    by_cases h5 : env.wait_ok = true
    · rw [main_eq_of_wait env h1 h2 h3 h4 h5]
      refine ⟨?_, ?_⟩ <;> simp [mainWaitRun, hr]
    · unfold main
      rw [if_neg h1, if_neg (by simp [h2]), if_neg (by simp [h3]),
        if_neg (by simp [h4]), if_pos (by simpa using h5)]
      refine ⟨?_, ?_⟩ <;> simp [hr]
  refine ⟨key.1, by rw [key.1], key.2, ?_⟩
  intro hz
  rw [key.2, List.takeWhile_eq_self_iff.mpr ?_]
  intro x hx
  simpa using hz x hx

/-- Environment of a run whose 3-byte payload contains an interior NUL. -/
def envNulByte : Env :=
  { file := some [65, 0, 66], pipe_ok := true, fork_ok := true,
    dup2_ok := true, exec_ok := true, script_status := ChildStatus.exited 0,
    writeRet := 3, wait_ok := true, dispo := fun _ => true }

/-- C3 counterexample: with the payload 65,0,66 - size 3, strictly between
0 and the capacity, written in full - the child receives all 3 bytes on
stdin, but its extra argument is the single byte 65: the C string handed to
execlp stops at the embedded NUL, so the argument is not the same S bytes
rendered as text. -/
theorem claim_C3_cex :
    (main envNulByte).childStdin = [65, 0, 66] ∧
    (main envNulByte).childArg = some [65] ∧
    (main envNulByte).childArg ≠ some [65, 0, 66] := by
  have hr : read_file envNulByte.file (MAX_INPUT_SIZE - 1)
      = { count := 3, data := [65, 0, 66], warned := false } := by
    have h := read_file_small [65, 0, 66] (MAX_INPUT_SIZE - 1) (by decide)
    simpa using h
  have h1 : (read_file envNulByte.file (MAX_INPUT_SIZE - 1)).count ≠ 0 := by
    rw [hr]
    decide
  have h4 : min envNulByte.writeRet
      (read_file envNulByte.file (MAX_INPUT_SIZE - 1)).count
      = (read_file envNulByte.file (MAX_INPUT_SIZE - 1)).count := by
    rw [hr]
    decide
  rw [main_eq_of_wait envNulByte h1 rfl rfl h4 rfl]
  refine ⟨?_, ?_, ?_⟩ <;> simp [mainWaitRun, hr]

/-- Payload with no interior NUL, for instantiating the amended C3. -/
def envPlainPayload : Env :=
  { file := some [60, 115, 62], pipe_ok := true, fork_ok := true,
    dup2_ok := true, exec_ok := true, script_status := ChildStatus.exited 0,
    writeRet := 3, wait_ok := true, dispo := fun _ => true }

theorem claim_C3_witness :
    envPlainPayload.file = some [60, 115, 62] ∧
    0 < ([60, 115, 62] : List Nat).length ∧
    ([60, 115, 62] : List Nat).length < MAX_INPUT_SIZE - 1 ∧
    envPlainPayload.pipe_ok = true ∧ envPlainPayload.fork_ok = true ∧
    ([60, 115, 62] : List Nat).length ≤ envPlainPayload.writeRet ∧
    ((main envPlainPayload).childStdin = [60, 115, 62] ∧
      (main envPlainPayload).childStdin.length
        = ([60, 115, 62] : List Nat).length ∧
      (main envPlainPayload).childArg
        = some (([60, 115, 62] : List Nat).takeWhile (fun b => b != 0)) ∧
      ((∀ b ∈ ([60, 115, 62] : List Nat), b ≠ 0) →
        (main envPlainPayload).childArg = some [60, 115, 62])) :=
  ⟨rfl, by decide, by decide, rfl, rfl, by decide,
    claim_C3 envPlainPayload [60, 115, 62] rfl (by decide) (by decide) rfl rfl
      (by decide)⟩

/-- C4 (amended): for every input of size S strictly above the loader
capacity MAX_INPUT_SIZE - 1, read_file returns exactly capacity bytes,
prints the truncation warning, and raises no error (the count is nonzero,
so main proceeds); the warning is printed exactly when S is at least the
capacity - whenever the cap is hit - including the boundary S = capacity,
where end-of-stream is reached at the same moment. -/
theorem claim_C4 (l : List Nat) (h : MAX_INPUT_SIZE - 1 < l.length) :
    (read_file (some l) (MAX_INPUT_SIZE - 1)).count = MAX_INPUT_SIZE - 1 ∧
    (read_file (some l) (MAX_INPUT_SIZE - 1)).warned = true ∧
    (read_file (some l) (MAX_INPUT_SIZE - 1)).count ≠ 0 ∧
    ∀ l2 : List Nat,
      ((read_file (some l2) (MAX_INPUT_SIZE - 1)).warned = true ↔
        MAX_INPUT_SIZE - 1 ≤ l2.length) := by
  have hb := read_file_big l (MAX_INPUT_SIZE - 1) (by decide) (le_of_lt h)
  refine ⟨by rw [hb], by rw [hb],
    by rw [hb]; show MAX_INPUT_SIZE - 1 ≠ 0; decide, ?_⟩
  intro l2
  rcases lt_or_le l2.length (MAX_INPUT_SIZE - 1) with hlen | hlen
  · rw [read_file_small l2 _ hlen]
    simp only [show ({ count := l2.length, data := l2, warned := false }
      : ReadResult).warned = false from rfl, Bool.false_eq_true, false_iff]
    omega
  · rw [read_file_big l2 _ (by decide) hlen]
    simp [hlen]

/-- C4 counterexample: on an input of exactly MAX_INPUT_SIZE - 1 bytes the
loop still prints the truncation warning although the returned count equals
the whole file length - every byte was consumed, so end-of-stream had been
reached at the very moment the cap was hit and nothing was truncated; the
warning is thus not emitted only when end-of-stream is still ahead. -/
theorem claim_C4_cex :
    (read_file (some (List.replicate (MAX_INPUT_SIZE - 1) 7))
        (MAX_INPUT_SIZE - 1)).warned = true ∧
    (read_file (some (List.replicate (MAX_INPUT_SIZE - 1) 7))
        (MAX_INPUT_SIZE - 1)).count
      = (List.replicate (MAX_INPUT_SIZE - 1) 7).length := by
  have hlen : (List.replicate (MAX_INPUT_SIZE - 1) 7).length
      = MAX_INPUT_SIZE - 1 := by
    rw [List.length_replicate]
  have hb := read_file_big (List.replicate (MAX_INPUT_SIZE - 1) 7)
    (MAX_INPUT_SIZE - 1) (by decide) (le_of_eq hlen.symm)
  rw [hb, hlen]
  exact ⟨rfl, rfl⟩

theorem claim_C4_witness :
    MAX_INPUT_SIZE - 1 < (List.replicate MAX_INPUT_SIZE 7).length ∧
    ((read_file (some (List.replicate MAX_INPUT_SIZE 7))
        (MAX_INPUT_SIZE - 1)).count = MAX_INPUT_SIZE - 1 ∧
      (read_file (some (List.replicate MAX_INPUT_SIZE 7))
        (MAX_INPUT_SIZE - 1)).warned = true ∧
      (read_file (some (List.replicate MAX_INPUT_SIZE 7))
        (MAX_INPUT_SIZE - 1)).count ≠ 0 ∧
      ∀ l2 : List Nat,
        ((read_file (some l2) (MAX_INPUT_SIZE - 1)).warned = true ↔
          MAX_INPUT_SIZE - 1 ≤ l2.length)) :=
  ⟨by rw [List.length_replicate]; decide,
    claim_C4 (List.replicate MAX_INPUT_SIZE 7)
      (by rw [List.length_replicate]; decide)⟩

/-- C10: the loader is invoked with capacity MAX_INPUT_SIZE - 1, its read
loop never accumulates more than that many bytes, and therefore the NUL
store at index count lands strictly inside the MAX_INPUT_SIZE-byte
buffer. -/
theorem claim_C10 (file : Option (List Nat)) :
    (read_file file (MAX_INPUT_SIZE - 1)).count ≤ MAX_INPUT_SIZE - 1 ∧
    (read_file file (MAX_INPUT_SIZE - 1)).count < MAX_INPUT_SIZE := by
  have h := read_file_count_le file (MAX_INPUT_SIZE - 1)
  refine ⟨h, ?_⟩
  unfold MAX_INPUT_SIZE at h ⊢
  omega

end HarnessWrapper
